import Mathlib

/-!
Verification of the Folk-Cart store-product controller
(`src/backend/controller/storeProduct.js`).

The controller is a thin Express/Mongoose layer over three MongoDB
collections (store products, products, stores).  We give a shallow
embedding: the database is an explicit value of type `DB`, every handler
becomes a pure function from its request data and the database to an
`OpResult` (HTTP status, `success` flag, `message`, payload, resulting
database, and a flag recording whether any persistence call was issued),
and the aggregation pipelines are translated stage by stage.

Modelling conventions:
* Mongo ObjectIds are strings; `mongoose.Types.ObjectId.isValid` accepts
  any 12-character string or a 24-character hex string.
* JS `undefined` request fields are `Option.none`; JS string truthiness
  (`if (x)`) is `truthyStr`.
* Numeric `price`/`stock` are `Int`; timestamps are `Nat` instants
  supplied as a `now` parameter where the source lets Mongoose stamp them.
* A persistence-layer fault other than the modelled duplicate-key error
  is injected through an `inj : Option JsError` parameter: when it is
  `some e`, the first database call of the try-block throws `e`, which the
  handler's catch-block then maps to a response.
-/

namespace FolkCart

/-- `mongoose.Types.ObjectId.isValid`: any 12-character string, or a
24-character hexadecimal string. -/
def isHexDigit (c : Char) : Bool :=
  c.isDigit || ('a' ≤ c && c ≤ 'f') || ('A' ≤ c && c ≤ 'F')

def isValidObjectId (s : String) : Bool :=
  s.length == 12 || (s.length == 24 && s.toList.all isHexDigit)

/-- JS truthiness of an optional string field: `undefined` and `""` are falsy. -/
def truthyStr : Option String → Bool
  | none => false
  | some s => !(s == "")

/-- A stored StoreProduct document (collection `storeproducts`).
Optional schema fields are stored with their defaults already applied. -/
structure StoreProductDoc where
  _id : String
  productId : String
  storeId : String
  price : Int
  stock : Int
  isAvailable : Bool
  recommended : Bool
  discount : Bool
  storeSpecificImages : List String
  createdAt : Nat
  updatedAt : Nat
deriving Repr, DecidableEq

/-- A Product document (collection `products`); external entity, read only. -/
structure ProductDoc where
  _id : String
  name : String
  description : String
  category : String
  images : List String
deriving Repr, DecidableEq

/-- A Store document (collection `stores`); external entity, read only. -/
structure StoreDoc where
  _id : String
  name : String
deriving Repr, DecidableEq

/-- The persistent state: the three collections the controller touches. -/
structure DB where
  storeProducts : List StoreProductDoc
  products : List ProductDoc
  stores : List StoreDoc
deriving Repr, DecidableEq

def DB.findProduct (db : DB) (id : String) : Option ProductDoc :=
  db.products.find? (fun p => p._id == id)

def DB.findStore (db : DB) (id : String) : Option StoreDoc :=
  db.stores.find? (fun s => s._id == id)

def DB.findStoreProduct (db : DB) (id : String) : Option StoreProductDoc :=
  db.storeProducts.find? (fun sp => sp._id == id)

/-- Result of `.populate('productId').populate('storeId')`: the reference
fields are replaced by the referenced documents (or `none` when the
referenced document is gone — populate does not drop the record). -/
structure PopulatedStoreProduct where
  _id : String
  productId : Option ProductDoc
  storeId : Option StoreDoc
  price : Int
  stock : Int
  isAvailable : Bool
  recommended : Bool
  discount : Bool
  storeSpecificImages : List String
  createdAt : Nat
  updatedAt : Nat
deriving Repr, DecidableEq

def populateStoreProduct (db : DB) (sp : StoreProductDoc) : PopulatedStoreProduct :=
  { _id := sp._id
    productId := db.findProduct sp.productId
    storeId := db.findStore sp.storeId
    price := sp.price
    stock := sp.stock
    isAvailable := sp.isAvailable
    recommended := sp.recommended
    discount := sp.discount
    storeSpecificImages := sp.storeSpecificImages
    createdAt := sp.createdAt
    updatedAt := sp.updatedAt }

/-- Outcome of one handler invocation: the JSON response
(`status`/`success`/`message`/payload), the database afterwards, and
whether any persistence call was issued before responding. -/
structure OpResult (α : Type) where
  status : Nat
  success : Bool
  message : Option String
  payload : Option α
  db : DB
  dbAccessed : Bool
deriving Repr, DecidableEq

/-- The shape of a caught persistence-layer error, as the JS catch blocks
inspect it: `error.code`, `error.keyPattern` (presence and which of the
two indexed fields it names), `error.name`, `error.message`. -/
structure JsError where
  code : Option Int
  hasKeyPattern : Bool
  keyPatternProductId : Bool
  keyPatternStoreId : Bool
  name : String
  message : String
deriving Repr, DecidableEq

/-- An error response produced by a catch block. -/
structure ErrResp where
  status : Nat
  success : Bool
  message : String
deriving Repr, DecidableEq

/-- JS `error.message || fallback`: the fallback is used when the message
is falsy (empty). -/
def msgOr (m fallback : String) : String :=
  if m == "" then fallback else m

/-- Modelled from the spec: the StoreProduct schema (under
`src/backend/models/`, not included in `src/`) declares a unique compound
index on `(productId, storeId)`; MongoDB surfaces a violation as error
code 11000 whose `keyPattern` names both fields. -/
def duplicateKeyError : JsError :=
  { code := some 11000
    hasKeyPattern := true
    keyPatternProductId := true
    keyPatternStoreId := true
    name := "MongoServerError"
    message := "E11000 duplicate key error collection: storeproducts index: productId_1_storeId_1" }

/-- Catch block of `createStoreProduct` (lines 45–53): duplicate key on
the (productId, storeId) index ↦ 409, `CastError` ↦ 400, else 500 with
the underlying message. -/
def createCatchHandler (e : JsError) : ErrResp :=
  if e.code == some 11000 && e.hasKeyPattern && e.keyPatternProductId && e.keyPatternStoreId then
    { status := 409, success := false, message := "This product already exists in this store." }
  else if e.name == "CastError" then
    { status := 400, success := false, message := "Invalid ID format in request body." }
  else
    { status := 500, success := false,
      message := msgOr e.message "An error occurred while creating the store product." }

/-- Catch block of `getStoreProducts` (lines 153–156): every error ↦ 500. -/
def getStoreProductsCatchHandler (e : JsError) : ErrResp :=
  { status := 500, success := false,
    message := msgOr e.message "An error occurred while fetching store products." }

/-- Catch block of `getStoreProductById` (lines 175–178): every error ↦ 500. -/
def getStoreProductByIdCatchHandler (e : JsError) : ErrResp :=
  { status := 500, success := false,
    message := msgOr e.message "An error occurred while fetching the store product." }

/-- Catch block of `updateStoreProduct` (lines 200–203): every error ↦ 500. -/
def updateStoreProductCatchHandler (e : JsError) : ErrResp :=
  { status := 500, success := false,
    message := msgOr e.message "An error occurred while updating the store product." }

/-- Catch block of `deleteStoreProduct` (lines 218–221): every error ↦ 500. -/
def deleteStoreProductCatchHandler (e : JsError) : ErrResp :=
  { status := 500, success := false,
    message := msgOr e.message "An error occurred while deleting the store product." }

/-- Catch block of `getProductSearchSummary` (lines 281–284): every error ↦ 500. -/
def getProductSearchSummaryCatchHandler (e : JsError) : ErrResp :=
  { status := 500, success := false,
    message := msgOr e.message "An error occurred while fetching product search summary." }

/-- Catch block of `getStoreOptionsForProduct` (lines 309–312): every error ↦ 500. -/
def getStoreOptionsForProductCatchHandler (e : JsError) : ErrResp :=
  { status := 500, success := false,
    message := msgOr e.message "An error occurred while fetching store options." }

/-- Lift a catch-block response to an `OpResult` (a persistence call was
issued — that is where the error came from — and the state is unchanged). -/
def ofErr {α : Type} (r : ErrResp) (db : DB) : OpResult α :=
  { status := r.status, success := r.success, message := some r.message,
    payload := none, db := db, dbAccessed := true }

/-- An early-validation 4xx response: no database access, state unchanged. -/
def preDbFail {α : Type} (status : Nat) (msg : String) (db : DB) : OpResult α :=
  { status := status, success := false, message := some msg,
    payload := none, db := db, dbAccessed := false }

/-! ## createStoreProduct -/

/-- The request body of `POST /store-products`; `none` is a JS `undefined`. -/
structure CreateBody where
  productId : Option String
  storeId : Option String
  price : Option Int
  stock : Option Int
  isAvailable : Option Bool
  recommended : Option Bool
  discount : Option Bool
  storeSpecificImages : Option (List String)
deriving Repr, DecidableEq

/-- Line 10: `!productId || !storeId || price === undefined || stock === undefined`. -/
def missingRequired (b : CreateBody) : Bool :=
  !(truthyStr b.productId) || !(truthyStr b.storeId) || b.price == none || b.stock == none

/-- The document `new StoreProduct({...})` saves.  Modelled from the spec:
the schema's defaults for the optional fields are implementation-defined;
we fix `isAvailable := true`, `recommended := false`, `discount := false`,
`storeSpecificImages := []` as the defaults. -/
def newStoreProductDoc (b : CreateBody) (freshId : String) (now : Nat) : StoreProductDoc :=
  { _id := freshId
    productId := b.productId.getD ""
    storeId := b.storeId.getD ""
    price := b.price.getD 0
    stock := b.stock.getD 0
    isAvailable := b.isAvailable.getD true
    recommended := b.recommended.getD false
    discount := b.discount.getD false
    storeSpecificImages := b.storeSpecificImages.getD []
    createdAt := now
    updatedAt := now }

/-- `createStoreProduct` (lines 6–55).  `freshId` is the system-generated
identifier of the new document and `now` the current instant.  `save()`
throws `duplicateKeyError` when a document with the same
(productId, storeId) pair already exists (unique index, see
`duplicateKeyError`). -/
def createStoreProduct (body : CreateBody) (freshId : String) (now : Nat)
    (inj : Option JsError) (db : DB) : OpResult PopulatedStoreProduct :=
  if missingRequired body then
    preDbFail 400 "Missing required fields for StoreProduct." db
  else if !(isValidObjectId (body.productId.getD "") && isValidObjectId (body.storeId.getD "")) then
    preDbFail 400 "Invalid format for Product ID or Store ID." db
  else
    match inj with
    | some e => ofErr (createCatchHandler e) db
    | none =>
      let pid := body.productId.getD ""
      let sid := body.storeId.getD ""
      let productExists := db.findProduct pid
      let storeExists := db.findStore sid
      if productExists == none then
        { status := 404, success := false, message := some "Common Product not found.",
          payload := none, db := db, dbAccessed := true }
      else if storeExists == none then
        { status := 404, success := false, message := some "Store not found.",
          payload := none, db := db, dbAccessed := true }
      else if db.storeProducts.any (fun sp => sp.productId == pid && sp.storeId == sid) then
        ofErr (createCatchHandler duplicateKeyError) db
      else
        let db' : DB := { db with storeProducts := db.storeProducts ++ [newStoreProductDoc body freshId now] }
        { status := 201, success := true, message := some "Store Product created successfully.",
          payload := (db'.findStoreProduct freshId).map (populateStoreProduct db'),
          db := db', dbAccessed := true }

/-! ## getStoreProducts -/

/-- The Mongoose `query` object built from the query string (lines 60–81):
an optional equality condition per field. -/
structure ListQuery where
  storeId : Option String
  recommended : Option Bool
  discount : Option Bool
deriving Repr, DecidableEq

/-- `Object.keys(query).length > 0` is false: no condition was added. -/
def ListQuery.isEmptyQ (q : ListQuery) : Bool :=
  q.storeId == none && q.recommended == none && q.discount == none

/-- A document matches the `$match: query` stage iff it satisfies every
condition present in the query object. -/
def matchesQuery (q : ListQuery) (sp : StoreProductDoc) : Bool :=
  (match q.storeId with
   | none => true
   | some s => sp.storeId == s) &&
  (match q.recommended with
   | none => true
   | some b => sp.recommended == b) &&
  (match q.discount with
   | none => true
   | some b => sp.discount == b)

/-- Lines 87–90: the `$match` stage is pushed only when the query object
is non-empty. -/
def matchStage (q : ListQuery) (l : List StoreProductDoc) : List StoreProductDoc :=
  if q.isEmptyQ then l else l.filter (matchesQuery q)

/-- `$lookup` from `products` on `productId = _id` followed by
`$unwind '$productDetails'`: one output document per matching product
(a record with no matching product is dropped). -/
def lookupUnwindProducts (db : DB) (l : List StoreProductDoc) :
    List (StoreProductDoc × ProductDoc) :=
  l.flatMap (fun sp => (db.products.filter (fun p => p._id == sp.productId)).map (fun p => (sp, p)))

/-- `$lookup` from `stores` on `storeId = _id` followed by `$unwind`. -/
def lookupUnwindStores (db : DB) (l : List (StoreProductDoc × ProductDoc)) :
    List ((StoreProductDoc × ProductDoc) × StoreDoc) :=
  l.flatMap (fun r => (db.stores.filter (fun s => s._id == r.1.storeId)).map (fun s => (r, s)))

/-- `$regex: search, $options: 'i'` with a plain (escape-free) pattern:
case-insensitive substring match. -/
def containsCI (name pat : String) : Bool :=
  decide (pat.toLower.toList <:+: name.toLower.toList)

/-- Lines 111–114: `$match: {'productDetails.category': category}`, pushed
only when `category` is truthy. -/
def categoryStage (category : Option String) (l : List ((StoreProductDoc × ProductDoc) × StoreDoc)) :
    List ((StoreProductDoc × ProductDoc) × StoreDoc) :=
  if truthyStr category then l.filter (fun r => r.1.2.category == category.getD "") else l

/-- Lines 116–123: `$match: {'productDetails.name': {$regex: search, $options: 'i'}}`,
pushed only when `search` is truthy. -/
def searchStage (search : Option String) (l : List ((StoreProductDoc × ProductDoc) × StoreDoc)) :
    List ((StoreProductDoc × ProductDoc) × StoreDoc) :=
  if truthyStr search then l.filter (fun r => containsCI r.1.2.name (search.getD "")) else l

/-- The `$project` output shape (lines 126–140): the store-product fields
plus the joined product and store documents in place of the identifiers. -/
structure JoinedRow where
  _id : String
  price : Int
  stock : Int
  isAvailable : Bool
  recommended : Bool
  discount : Bool
  storeSpecificImages : List String
  productId : ProductDoc
  storeId : StoreDoc
  createdAt : Nat
  updatedAt : Nat
deriving Repr, DecidableEq

def projectRow (r : (StoreProductDoc × ProductDoc) × StoreDoc) : JoinedRow :=
  { _id := r.1.1._id
    price := r.1.1.price
    stock := r.1.1.stock
    isAvailable := r.1.1.isAvailable
    recommended := r.1.1.recommended
    discount := r.1.1.discount
    storeSpecificImages := r.1.1.storeSpecificImages
    productId := r.1.2
    storeId := r.2
    createdAt := r.1.1.createdAt
    updatedAt := r.1.1.updatedAt }

/-- Lines 65–81: build the query object.  The identifier-format guard for
a truthy `storeId` is handled in `getStoreProducts` itself. -/
def buildListQuery (storeId recommended discount : Option String) : ListQuery :=
  { storeId := if truthyStr storeId then some (storeId.getD "") else none
    recommended := if recommended == some "true" then some true else none
    discount := if discount == some "true" then some true else none }

/-- The whole aggregation pipeline of `getStoreProducts` (lines 85–145). -/
def listPipeline (db : DB) (q : ListQuery) (category search : Option String) : List JoinedRow :=
  (searchStage search
    (categoryStage category
      (lookupUnwindStores db
        (lookupUnwindProducts db
          (matchStage q db.storeProducts))))).map projectRow

/-- `getStoreProducts` (lines 57–157): `GET /store-products`. -/
def getStoreProducts (storeId category recommended discount search : Option String)
    (inj : Option JsError) (db : DB) : OpResult (List JoinedRow) :=
  if truthyStr storeId && !(isValidObjectId (storeId.getD "")) then
    preDbFail 400 "Invalid Store ID format." db
  else
    match inj with
    | some e => ofErr (getStoreProductsCatchHandler e) db
    | none =>
      { status := 200, success := true, message := none,
        payload := some (listPipeline db (buildListQuery storeId recommended discount) category search),
        db := db, dbAccessed := true }

/-! ## getStoreProductById -/

/-- `getStoreProductById` (lines 159–179): `GET /store-products/:id`. -/
def getStoreProductById (id : String) (inj : Option JsError) (db : DB) :
    OpResult PopulatedStoreProduct :=
  if !(isValidObjectId id) then
    preDbFail 400 "Invalid Store Product ID format." db
  else
    match inj with
    | some e => ofErr (getStoreProductByIdCatchHandler e) db
    | none =>
      match db.findStoreProduct id with
      | none =>
        { status := 404, success := false, message := some "Store Product not found.",
          payload := none, db := db, dbAccessed := true }
      | some sp =>
        { status := 200, success := true, message := none,
          payload := some (populateStoreProduct db sp), db := db, dbAccessed := true }

/-! ## updateStoreProduct -/

/-- The partial `PUT` body: `none` means the field is absent from `req.body`. -/
structure UpdateBody where
  productId : Option String
  storeId : Option String
  price : Option Int
  stock : Option Int
  isAvailable : Option Bool
  recommended : Option Bool
  discount : Option Bool
  storeSpecificImages : Option (List String)
deriving Repr, DecidableEq

/-- `findByIdAndUpdate(id, req.body)`: each supplied field overwrites the
stored one, absent fields are untouched; Mongoose re-stamps `updatedAt`
(timestamps are schema-managed, see the spec's data model). -/
def applyUpdate (now : Nat) (b : UpdateBody) (sp : StoreProductDoc) : StoreProductDoc :=
  { _id := sp._id
    productId := b.productId.getD sp.productId
    storeId := b.storeId.getD sp.storeId
    price := b.price.getD sp.price
    stock := b.stock.getD sp.stock
    isAvailable := b.isAvailable.getD sp.isAvailable
    recommended := b.recommended.getD sp.recommended
    discount := b.discount.getD sp.discount
    storeSpecificImages := b.storeSpecificImages.getD sp.storeSpecificImages
    createdAt := sp.createdAt
    updatedAt := now }

/-- Replace the first element satisfying `p` by `f` of it. -/
def updateFirst {α : Type} (p : α → Bool) (f : α → α) : List α → List α
  | [] => []
  | x :: xs => if p x then f x :: xs else x :: updateFirst p f xs

/-- `updateStoreProduct` (lines 181–204): `PUT /store-products/:id`.
Modelled from the spec: the unique (productId, storeId) index also rejects
an update that would collide with another record — the write throws
`duplicateKeyError`, which this handler's catch block maps (to 500). -/
def updateStoreProduct (id : String) (body : UpdateBody) (now : Nat)
    (inj : Option JsError) (db : DB) : OpResult PopulatedStoreProduct :=
  if !(isValidObjectId id) then
    preDbFail 400 "Invalid Store Product ID format." db
  else
    match inj with
    | some e => ofErr (updateStoreProductCatchHandler e) db
    | none =>
      match db.findStoreProduct id with
      | none =>
        { status := 404, success := false, message := some "Store Product not found.",
          payload := none, db := db, dbAccessed := true }
      | some sp =>
        let merged := applyUpdate now body sp
        if db.storeProducts.any (fun o =>
            !(o._id == sp._id) && o.productId == merged.productId && o.storeId == merged.storeId) then
          ofErr (updateStoreProductCatchHandler duplicateKeyError) db
        else
          let db' : DB :=
            { db with storeProducts := updateFirst (fun o => o._id == id) (fun _ => merged) db.storeProducts }
          { status := 200, success := true, message := some "Store Product updated successfully.",
            payload := some (populateStoreProduct db' merged), db := db', dbAccessed := true }

/-! ## deleteStoreProduct -/

/-- `deleteStoreProduct` (lines 206–222): `DELETE /store-products/:id`. -/
def deleteStoreProduct (id : String) (inj : Option JsError) (db : DB) : OpResult Unit :=
  if !(isValidObjectId id) then
    preDbFail 400 "Invalid Store Product ID format." db
  else
    match inj with
    | some e => ofErr (deleteStoreProductCatchHandler e) db
    | none =>
      match db.findStoreProduct id with
      | none =>
        { status := 404, success := false, message := some "Store Product not found.",
          payload := none, db := db, dbAccessed := true }
      | some _ =>
        { status := 200, success := true, message := some "Store Product deleted successfully.",
          payload := none,
          db := { db with storeProducts := db.storeProducts.eraseP (fun sp => sp._id == id) },
          dbAccessed := true }

/-! ## getProductSearchSummary -/

/-- Line 230: `$match: { isAvailable: true }`. -/
def availableStage (l : List StoreProductDoc) : List StoreProductDoc :=
  l.filter (fun sp => sp.isAvailable == true)

/-- Lines 243–245: category `$match` on the joined product, when truthy. -/
def categoryStageP (category : Option String) (l : List (StoreProductDoc × ProductDoc)) :
    List (StoreProductDoc × ProductDoc) :=
  if truthyStr category then l.filter (fun r => r.2.category == category.getD "") else l

/-- Lines 246–252: name-search `$match` on the joined product, when truthy. -/
def searchStageP (search : Option String) (l : List (StoreProductDoc × ProductDoc)) :
    List (StoreProductDoc × ProductDoc) :=
  if truthyStr search then l.filter (fun r => containsCI r.2.name (search.getD "")) else l

/-- The documents reaching the `$group` stage of `getProductSearchSummary`. -/
def summaryCandidates (db : DB) (category search : Option String) :
    List (StoreProductDoc × ProductDoc) :=
  searchStageP search
    (categoryStageP category
      (lookupUnwindProducts db
        (availableStage db.storeProducts)))

/-- One `$group`/`$project` output row (lines 254–276). -/
structure SummaryRow where
  _id : String
  name : String
  description : String
  images : List String
  minPrice : Int
  maxPrice : Int
  sampleStoreProductId : String
deriving Repr, DecidableEq

/-- The distinct keys of a list, each kept at its first occurrence;
structural recursion with the list length as fuel, so the definition
reduces inside the kernel. -/
def firstOccKeysFuel : Nat → List String → List String
  | _, [] => []
  | 0, _ :: _ => []
  | n + 1, k :: ks => k :: firstOccKeysFuel n (ks.filter (fun x => !(x == k)))

def firstOccKeys (l : List String) : List String := firstOccKeysFuel l.length l

/-- The `$group` accumulator for one key: `$first` of name/description/
images/document id, `$min`/`$max` of price, over the documents with that
`productId`. -/
def summarize (k : String) (rows : List (StoreProductDoc × ProductDoc)) : Option SummaryRow :=
  match rows.filter (fun r => r.1.productId == k) with
  | [] => none
  | r :: rs =>
    some { _id := k
           name := r.2.name
           description := r.2.description
           images := r.2.images
           minPrice := (rs.map (fun x => x.1.price)).foldl min r.1.price
           maxPrice := (rs.map (fun x => x.1.price)).foldl max r.1.price
           sampleStoreProductId := r.1._id }

/-- The `$group` stage: one row per distinct `productId`, in first-seen order. -/
def groupStage (rows : List (StoreProductDoc × ProductDoc)) : List SummaryRow :=
  (firstOccKeys (rows.map (fun r => r.1.productId))).filterMap (fun k => summarize k rows)

/-- `getProductSearchSummary` (lines 224–285): `GET /store-products/search-summary`. -/
def getProductSearchSummary (category search : Option String) (inj : Option JsError) (db : DB) :
    OpResult (List SummaryRow) :=
  match inj with
  | some e => ofErr (getProductSearchSummaryCatchHandler e) db
  | none =>
    { status := 200, success := true, message := none,
      payload := some (groupStage (summaryCandidates db category search)),
      db := db, dbAccessed := true }

/-! ## getStoreOptionsForProduct -/

/-- `getStoreOptionsForProduct` (lines 287–313): `GET /store-products/options/:productId`. -/
def getStoreOptionsForProduct (productId : String) (inj : Option JsError) (db : DB) :
    OpResult (List PopulatedStoreProduct) :=
  if productId == "" || !(isValidObjectId productId) then
    preDbFail 400 "Valid Product ID is required." db
  else
    match inj with
    | some e => ofErr (getStoreOptionsForProductCatchHandler e) db
    | none =>
      let sps := db.storeProducts.filter (fun sp => sp.productId == productId)
      if sps.isEmpty then
        { status := 404, success := false, message := some "No store options found for this product.",
          payload := none, db := db, dbAccessed := true }
      else
        { status := 200, success := true, message := none,
          payload := some (sps.map (populateStoreProduct db)), db := db, dbAccessed := true }

/-! ## Sample data

Concrete documents used to exercise the operations (any 12-character
string is a valid ObjectId). -/

def prod1 : ProductDoc :=
  { _id := "productAAAA1", name := "Apple", description := "fruit", category := "food",
    images := ["a.png"] }

def prod2 : ProductDoc :=
  { _id := "productAAAA2", name := "Soap", description := "clean", category := "home",
    images := [] }

def store1 : StoreDoc := { _id := "storeBBBBBB1", name := "North" }

def store2 : StoreDoc := { _id := "storeBBBBBB2", name := "South" }

def sp1 : StoreProductDoc :=
  { _id := "spCCCCCCCCC1", productId := "productAAAA1", storeId := "storeBBBBBB1",
    price := 5, stock := 10, isAvailable := true, recommended := true, discount := false,
    storeSpecificImages := [], createdAt := 1, updatedAt := 1 }

def sp2 : StoreProductDoc :=
  { _id := "spCCCCCCCCC2", productId := "productAAAA1", storeId := "storeBBBBBB2",
    price := 7, stock := 3, isAvailable := true, recommended := false, discount := true,
    storeSpecificImages := ["x.png"], createdAt := 2, updatedAt := 2 }

def sp3 : StoreProductDoc :=
  { _id := "spCCCCCCCCC3", productId := "productAAAA2", storeId := "storeBBBBBB1",
    price := 4, stock := 0, isAvailable := false, recommended := false, discount := false,
    storeSpecificImages := [], createdAt := 3, updatedAt := 3 }

/-- A record whose referenced product no longer exists (orphan). -/
def spOrphan : StoreProductDoc :=
  { _id := "spCCCCCCCCC4", productId := "productMISSX", storeId := "storeBBBBBB1",
    price := 9, stock := 1, isAvailable := true, recommended := true, discount := true,
    storeSpecificImages := [], createdAt := 4, updatedAt := 4 }

def db0 : DB :=
  { storeProducts := [sp1, sp2, sp3, spOrphan], products := [prod1, prod2],
    stores := [store1, store2] }

/-! ## Theorems -/

/-- **C3.** Create with well-formed identifiers fails NotFound (404) when
the referenced Product or Store does not exist, and the Product existence
check takes precedence: whenever the Product is absent the response is
the Product-not-found failure, regardless of whether the Store exists. -/
theorem createStoreProduct_notFound_product_first
    (body : CreateBody) (freshId : String) (now : Nat) (db : DB)
    (hmiss : missingRequired body = false)
    (hvp : isValidObjectId (body.productId.getD "") = true)
    (hvs : isValidObjectId (body.storeId.getD "") = true) :
    (db.findProduct (body.productId.getD "") = none →
      createStoreProduct body freshId now none db =
        { status := 404, success := false, message := some "Common Product not found.",
          payload := none, db := db, dbAccessed := true })
    ∧ (∀ p, db.findProduct (body.productId.getD "") = some p →
        db.findStore (body.storeId.getD "") = none →
        createStoreProduct body freshId now none db =
          { status := 404, success := false, message := some "Store not found.",
            payload := none, db := db, dbAccessed := true }) := by
  constructor
  · intro hnp
    simp [createStoreProduct, hmiss, hvp, hvs, hnp]
  · intro p hp hns
    simp [createStoreProduct, hmiss, hvp, hvs, hp, hns]

/-- Witness for C3: creating against `db0` with an absent product id
(while the store exists) yields the Product-not-found 404. -/
theorem createStoreProduct_notFound_product_first_witness :
    createStoreProduct
      { productId := some "productZZZZ9", storeId := some "storeBBBBBB1",
        price := some 6, stock := some 2, isAvailable := none, recommended := none,
        discount := none, storeSpecificImages := none } "spCCCCCCCCC9" 9 none db0 =
      { status := 404, success := false, message := some "Common Product not found.",
        payload := none, db := db0, dbAccessed := true } :=
  (createStoreProduct_notFound_product_first _ "spCCCCCCCCC9" 9 db0
    (by decide) (by decide) (by decide)).1 (by decide)

/-- **C4.** Create for a (productId, storeId) pair that already has a
StoreProduct record fails with Conflict (409) and leaves the collection
unchanged (no second record for the pair is persisted). -/
theorem createStoreProduct_conflict_state_unchanged
    (body : CreateBody) (freshId : String) (now : Nat) (db : DB)
    (hmiss : missingRequired body = false)
    (hvp : isValidObjectId (body.productId.getD "") = true)
    (hvs : isValidObjectId (body.storeId.getD "") = true)
    (p : ProductDoc) (hp : db.findProduct (body.productId.getD "") = some p)
    (s : StoreDoc) (hs : db.findStore (body.storeId.getD "") = some s)
    (hdup : db.storeProducts.any (fun sp =>
      sp.productId == body.productId.getD "" && sp.storeId == body.storeId.getD "") = true) :
    createStoreProduct body freshId now none db =
      { status := 409, success := false,
        message := some "This product already exists in this store.",
        payload := none, db := db, dbAccessed := true } := by
  simp [createStoreProduct, hmiss, hvp, hvs, hp, hs, hdup, ofErr,
    createCatchHandler, duplicateKeyError]

/-- Witness for C4: re-creating the (product, store) pair of `sp1` against
`db0` yields 409 and leaves `db0` unchanged. -/
theorem createStoreProduct_conflict_state_unchanged_witness :
    createStoreProduct
      { productId := some "productAAAA1", storeId := some "storeBBBBBB1",
        price := some 6, stock := some 2, isAvailable := none, recommended := none,
        discount := none, storeSpecificImages := none } "spCCCCCCCCC9" 9 none db0 =
      { status := 409, success := false,
        message := some "This product already exists in this store.",
        payload := none, db := db0, dbAccessed := true } :=
  createStoreProduct_conflict_state_unchanged _ "spCCCCCCCCC9" 9 db0
    (by decide) (by decide) (by decide) prod1 (by decide) store1 (by decide) (by decide)

/-- **C10.** Create's missing-field check rejects only strictly absent
fields: `price = 0` and `stock = 0` pass the required-field validation and
the operation proceeds (it reaches the database when the identifiers are
well-formed), whereas an empty-string productId or storeId is treated as
missing and rejected with the missing-fields 400 before any query. -/
theorem createStoreProduct_required_field_check
    (body : CreateBody) (freshId : String) (now : Nat) (db : DB) :
    (body.price = some 0 → body.stock = some 0 →
      truthyStr body.productId = true → truthyStr body.storeId = true →
      missingRequired body = false ∧
      (isValidObjectId (body.productId.getD "") = true →
        isValidObjectId (body.storeId.getD "") = true →
        (createStoreProduct body freshId now none db).dbAccessed = true))
    ∧ (body.productId = some "" →
      missingRequired body = true ∧
      createStoreProduct body freshId now none db =
        { status := 400, success := false,
          message := some "Missing required fields for StoreProduct.",
          payload := none, db := db, dbAccessed := false })
    ∧ (body.storeId = some "" →
      missingRequired body = true ∧
      createStoreProduct body freshId now none db =
        { status := 400, success := false,
          message := some "Missing required fields for StoreProduct.",
          payload := none, db := db, dbAccessed := false }) := by
  refine ⟨?_, ?_, ?_⟩
  · intro hp hs htp hts
    have hmiss : missingRequired body = false := by
      simp [missingRequired, htp, hts, hp, hs]
    refine ⟨hmiss, ?_⟩
    intro hvp hvs
    simp only [createStoreProduct, hmiss, hvp, hvs]
    simp only [Bool.false_eq_true, if_false, Bool.and_self, Bool.not_true]
    split
    · rfl
    · split
      · rfl
      · split
        · rfl
        · rfl
  · intro h
    have hmiss : missingRequired body = true := by
      simp [missingRequired, truthyStr, h]
    exact ⟨hmiss, by simp [createStoreProduct, hmiss, preDbFail]⟩
  · intro h
    have hmiss : missingRequired body = true := by
      simp [missingRequired, truthyStr, h]
    exact ⟨hmiss, by simp [createStoreProduct, hmiss, preDbFail]⟩

/-- Witness for C10: a body with `price = 0` and `stock = 0` passes the
required-field check and reaches the database. -/
theorem createStoreProduct_required_field_check_witness :
    missingRequired
      { productId := some "productAAAA1", storeId := some "storeBBBBBB1",
        price := some 0, stock := some 0, isAvailable := none, recommended := none,
        discount := none, storeSpecificImages := none } = false ∧
    (createStoreProduct
      { productId := some "productAAAA1", storeId := some "storeBBBBBB1",
        price := some 0, stock := some 0, isAvailable := none, recommended := none,
        discount := none, storeSpecificImages := none } "spCCCCCCCCC9" 9 none db0).dbAccessed = true := by
  have h := (createStoreProduct_required_field_check
    { productId := some "productAAAA1", storeId := some "storeBBBBBB1",
      price := some 0, stock := some 0, isAvailable := none, recommended := none,
      discount := none, storeSpecificImages := none } "spCCCCCCCCC9" 9 db0).1
    rfl rfl (by decide) (by decide)
  exact ⟨h.1, h.2 (by decide) (by decide)⟩

/-- **C9.** StoreOptionsForProduct with a well-formed productId fails
NotFound (404) when zero StoreProduct records reference that product, and
otherwise returns every StoreProduct record referencing it, each with its
Product and Store populated; a successful (200) response never carries an
empty list. -/
theorem getStoreOptionsForProduct_nonempty_or_404
    (pid : String) (db : DB) (hv : isValidObjectId pid = true) :
    (db.storeProducts.filter (fun sp => sp.productId == pid) = [] →
      getStoreOptionsForProduct pid none db =
        { status := 404, success := false,
          message := some "No store options found for this product.",
          payload := none, db := db, dbAccessed := true })
    ∧ (db.storeProducts.filter (fun sp => sp.productId == pid) ≠ [] →
      getStoreOptionsForProduct pid none db =
        { status := 200, success := true, message := none,
          payload := some ((db.storeProducts.filter (fun sp => sp.productId == pid)).map
            (populateStoreProduct db)),
          db := db, dbAccessed := true })
    ∧ ((getStoreOptionsForProduct pid none db).status = 200 →
      (getStoreOptionsForProduct pid none db).payload ≠ some []) := by
  have hne : (pid == "") = false := by
    cases hpe : (pid == "") with
    | false => rfl
    | true =>
      rw [beq_iff_eq] at hpe
      subst hpe
      simp [isValidObjectId] at hv
  have h404 : db.storeProducts.filter (fun sp => sp.productId == pid) = [] →
      getStoreOptionsForProduct pid none db =
        { status := 404, success := false,
          message := some "No store options found for this product.",
          payload := none, db := db, dbAccessed := true } := by
    intro h
    simp [getStoreOptionsForProduct, hne, hv, h]
  have h200 : db.storeProducts.filter (fun sp => sp.productId == pid) ≠ [] →
      getStoreOptionsForProduct pid none db =
        { status := 200, success := true, message := none,
          payload := some ((db.storeProducts.filter (fun sp => sp.productId == pid)).map
            (populateStoreProduct db)),
          db := db, dbAccessed := true } := by
    intro h
    simp [getStoreOptionsForProduct, hne, hv, List.isEmpty_iff, h]
  refine ⟨h404, h200, ?_⟩
  intro hs
  by_cases hemp : db.storeProducts.filter (fun sp => sp.productId == pid) = []
  · rw [h404 hemp] at hs
    simp at hs
  · rw [h200 hemp]
    simp [hemp]

/-- Witness for C9: product `prod1` is carried by two stores in `db0`, so
the response is a 200 with both records; the absent product
`"productZZZZ9"` yields the 404. -/
theorem getStoreOptionsForProduct_nonempty_or_404_witness :
    (getStoreOptionsForProduct "productAAAA1" none db0).status = 200
    ∧ (getStoreOptionsForProduct "productAAAA1" none db0).payload ≠ some []
    ∧ (getStoreOptionsForProduct "productZZZZ9" none db0).status = 404 := by
  refine ⟨?_, ?_, ?_⟩
  · rw [(getStoreOptionsForProduct_nonempty_or_404 "productAAAA1" db0 (by decide)).2.1 (by decide)]
  · exact (getStoreOptionsForProduct_nonempty_or_404 "productAAAA1" db0 (by decide)).2.2 (by decide)
  · rw [(getStoreOptionsForProduct_nonempty_or_404 "productZZZZ9" db0 (by decide)).1 (by decide)]

/-- **C8.** Update with a well-formed id and a partial body modifies only
the fields supplied in the body: the stored record becomes
`applyUpdate now body sp`, in which every field not supplied retains its
prior value, every supplied field takes the supplied value, and the
identity (and `createdAt`) are unchanged. -/
theorem updateStoreProduct_partial_update
    (id : String) (body : UpdateBody) (now : Nat) (db : DB) (sp : StoreProductDoc)
    (hv : isValidObjectId id = true)
    (hfind : db.findStoreProduct id = some sp)
    (hnocol : db.storeProducts.any (fun o =>
      !(o._id == sp._id) && o.productId == (body.productId.getD sp.productId)
        && o.storeId == (body.storeId.getD sp.storeId)) = false) :
    updateStoreProduct id body now none db =
      { status := 200, success := true,
        message := some "Store Product updated successfully.",
        payload := some (populateStoreProduct
          { db with
            storeProducts :=
              updateFirst (fun o => o._id == id) (fun _ => applyUpdate now body sp)
                db.storeProducts }
          (applyUpdate now body sp)),
        db :=
          { db with
            storeProducts :=
              updateFirst (fun o => o._id == id) (fun _ => applyUpdate now body sp)
                db.storeProducts },
        dbAccessed := true }
    ∧ (applyUpdate now body sp)._id = sp._id
    ∧ (applyUpdate now body sp).createdAt = sp.createdAt
    ∧ (body.productId = none → (applyUpdate now body sp).productId = sp.productId)
    ∧ (body.storeId = none → (applyUpdate now body sp).storeId = sp.storeId)
    ∧ (body.price = none → (applyUpdate now body sp).price = sp.price)
    ∧ (body.stock = none → (applyUpdate now body sp).stock = sp.stock)
    ∧ (body.isAvailable = none → (applyUpdate now body sp).isAvailable = sp.isAvailable)
    ∧ (body.recommended = none → (applyUpdate now body sp).recommended = sp.recommended)
    ∧ (body.discount = none → (applyUpdate now body sp).discount = sp.discount)
    ∧ (body.storeSpecificImages = none →
        (applyUpdate now body sp).storeSpecificImages = sp.storeSpecificImages)
    ∧ (∀ v, body.productId = some v → (applyUpdate now body sp).productId = v)
    ∧ (∀ v, body.storeId = some v → (applyUpdate now body sp).storeId = v)
    ∧ (∀ v, body.price = some v → (applyUpdate now body sp).price = v)
    ∧ (∀ v, body.stock = some v → (applyUpdate now body sp).stock = v)
    ∧ (∀ v, body.isAvailable = some v → (applyUpdate now body sp).isAvailable = v)
    ∧ (∀ v, body.recommended = some v → (applyUpdate now body sp).recommended = v)
    ∧ (∀ v, body.storeSpecificImages = some v →
        (applyUpdate now body sp).storeSpecificImages = v) := by
  refine ⟨?_, rfl, rfl, ?_, ?_, ?_, ?_, ?_, ?_, ?_, ?_, ?_, ?_, ?_, ?_, ?_, ?_, ?_⟩
  · simp [updateStoreProduct, applyUpdate, hv, hfind, hnocol]
  all_goals intro h
  all_goals try (simp [applyUpdate, h])
  all_goals intro hv'
  all_goals simp [applyUpdate, hv']

/-- Witness for C8: updating `sp2`'s price alone in `db0` succeeds and
every other field of the merged record keeps its prior value. -/
theorem updateStoreProduct_partial_update_witness :
    (updateStoreProduct "spCCCCCCCCC2"
      { productId := none, storeId := none, price := some 10, stock := none,
        isAvailable := none, recommended := none, discount := none,
        storeSpecificImages := none } 5 none db0).status = 200
    ∧ (applyUpdate 5
        { productId := none, storeId := none, price := some 10, stock := none,
          isAvailable := none, recommended := none, discount := none,
          storeSpecificImages := none } sp2).price = 10
    ∧ (applyUpdate 5
        { productId := none, storeId := none, price := some 10, stock := none,
          isAvailable := none, recommended := none, discount := none,
          storeSpecificImages := none } sp2).stock = sp2.stock := by
  have h := updateStoreProduct_partial_update "spCCCCCCCCC2"
    { productId := none, storeId := none, price := some 10, stock := none,
      isAvailable := none, recommended := none, discount := none,
      storeSpecificImages := none } 5 db0 sp2 (by decide) (by decide) (by decide)
  refine ⟨?_, ?_, ?_⟩
  · rw [h.1]
  · exact h.2.2.2.2.2.2.2.2.2.2.2.2.2.1 10 rfl
  · exact h.2.2.2.2.2.2.1 rfl

/-- **C1 (counterexample).** The claim as stated fails for List: the
supplied storeId `""` is not a well-formed identifier, yet
`getStoreProducts` does not return 400 — it runs the aggregation (a
database query) and answers 200, because the JS guard `if (storeId)`
treats the empty string as absent. -/
theorem list_empty_storeId_not_rejected :
    isValidObjectId "" = false
    ∧ (getStoreProducts (some "") none none none none none db0).status = 200
    ∧ (getStoreProducts (some "") none none none none none db0).dbAccessed = true := by
  refine ⟨by decide, by decide, by decide⟩

/-- **C1 (amended).** For every operation that accepts an entity
identifier, a supplied malformed identifier is answered with 400 before
any database access and with the state unchanged — except that List
treats an empty-string storeId as absent (no filter, no rejection); for
List the guarantee holds for every non-empty malformed storeId.  The
statement holds for any injected persistence fault, exhibiting that no
database call is reached. -/
theorem invalid_identifier_rejected_before_db (db : DB) (inj : Option JsError) :
    (∀ (body : CreateBody) (freshId : String) (now : Nat) (p : String),
      body.productId = some p → isValidObjectId p = false →
      (createStoreProduct body freshId now inj db).status = 400
        ∧ (createStoreProduct body freshId now inj db).db = db
        ∧ (createStoreProduct body freshId now inj db).dbAccessed = false)
    ∧ (∀ (body : CreateBody) (freshId : String) (now : Nat) (s : String),
      body.storeId = some s → isValidObjectId s = false →
      (createStoreProduct body freshId now inj db).status = 400
        ∧ (createStoreProduct body freshId now inj db).db = db
        ∧ (createStoreProduct body freshId now inj db).dbAccessed = false)
    ∧ (∀ (category recommended discount search : Option String) (s : String),
      s ≠ "" → isValidObjectId s = false →
      getStoreProducts (some s) category recommended discount search inj db =
        { status := 400, success := false, message := some "Invalid Store ID format.",
          payload := none, db := db, dbAccessed := false })
    ∧ (∀ id : String, isValidObjectId id = false →
      getStoreProductById id inj db =
        { status := 400, success := false, message := some "Invalid Store Product ID format.",
          payload := none, db := db, dbAccessed := false })
    ∧ (∀ (id : String) (body : UpdateBody) (now : Nat), isValidObjectId id = false →
      updateStoreProduct id body now inj db =
        { status := 400, success := false, message := some "Invalid Store Product ID format.",
          payload := none, db := db, dbAccessed := false })
    ∧ (∀ id : String, isValidObjectId id = false →
      deleteStoreProduct id inj db =
        { status := 400, success := false, message := some "Invalid Store Product ID format.",
          payload := none, db := db, dbAccessed := false })
    ∧ (∀ pid : String, isValidObjectId pid = false →
      getStoreOptionsForProduct pid inj db =
        { status := 400, success := false, message := some "Valid Product ID is required.",
          payload := none, db := db, dbAccessed := false }) := by
  refine ⟨?_, ?_, ?_, ?_, ?_, ?_, ?_⟩
  · intro body freshId now p hp hpv
    by_cases hm : missingRequired body = true
    · simp [createStoreProduct, hm, preDbFail]
    · have hm' : missingRequired body = false := by
        revert hm
        cases missingRequired body <;> simp
      have hget : body.productId.getD "" = p := by rw [hp]; rfl
      simp [createStoreProduct, hm', hget, hpv, preDbFail]
  · intro body freshId now s hs hsv
    by_cases hm : missingRequired body = true
    · simp [createStoreProduct, hm, preDbFail]
    · have hm' : missingRequired body = false := by
        revert hm
        cases missingRequired body <;> simp
      have hget : body.storeId.getD "" = s := by rw [hs]; rfl
      simp [createStoreProduct, hm', hget, hsv, preDbFail]
  · intro category recommended discount search s hne hsv
    have : (s == "") = false := by
      cases hb : (s == "") with
      | false => rfl
      | true => exact absurd (by rwa [beq_iff_eq] at hb) hne
    simp [getStoreProducts, truthyStr, this, hsv, preDbFail]
  · intro id hiv
    simp [getStoreProductById, hiv, preDbFail]
  · intro id body now hiv
    simp [updateStoreProduct, hiv, preDbFail]
  · intro id hiv
    simp [deleteStoreProduct, hiv, preDbFail]
  · intro pid hpv
    simp [getStoreOptionsForProduct, hpv, preDbFail]

/-- Witness for the amended C1: the malformed id `"notvalid"` is rejected
by GetById with 400 against `db0`, without touching the database. -/
theorem invalid_identifier_rejected_before_db_witness :
    getStoreProductById "notvalid" none db0 =
      { status := 400, success := false, message := some "Invalid Store Product ID format.",
        payload := none, db := db0, dbAccessed := false } :=
  (invalid_identifier_rejected_before_db db0 none).2.2.2.1 "notvalid" (by decide)

/-- **C2 (counterexample).** The claim as stated fails outside Create: in
`db0`, updating `sp2` to the (productId, storeId) pair already held by
`sp1` makes the write fail with the duplicate-key error, and
`updateStoreProduct`'s catch block maps it to 500 carrying the raw
duplicate-key message — not to the Conflict (409) the claim requires of
every operation. -/
theorem update_duplicate_key_maps_to_500 :
    (updateStoreProduct "spCCCCCCCCC2"
      { productId := none, storeId := some "storeBBBBBB1", price := none, stock := none,
        isAvailable := none, recommended := none, discount := none,
        storeSpecificImages := none } 5 none db0).status = 500
    ∧ (updateStoreProduct "spCCCCCCCCC2"
      { productId := none, storeId := some "storeBBBBBB1", price := none, stock := none,
        isAvailable := none, recommended := none, discount := none,
        storeSpecificImages := none } 5 none db0).status ≠ 409
    ∧ (updateStoreProduct "spCCCCCCCCC2"
      { productId := none, storeId := some "storeBBBBBB1", price := none, stock := none,
        isAvailable := none, recommended := none, discount := none,
        storeSpecificImages := none } 5 none db0).message =
      some "E11000 duplicate key error collection: storeproducts index: productId_1_storeId_1" := by
  refine ⟨by decide, by decide, by decide⟩

/-- **C2 (amended).** Create's catch block maps a duplicate-key error
(code 11000 with a keyPattern naming productId and storeId) to Conflict
(409) and a cast error to InvalidArgument (400), everything else to 500
with the underlying message; every other operation maps every
persistence-layer error — duplicate-key and cast errors included — to 500
with the underlying message.  No persistence-layer error escapes
unmapped: whenever an operation's try-block faults, the response is
exactly its own catch handler's. -/
theorem persistence_error_mapping (e : JsError) (db : DB) :
    ((e.code == some 11000 && e.hasKeyPattern && e.keyPatternProductId && e.keyPatternStoreId) = true →
      createCatchHandler e =
        { status := 409, success := false,
          message := "This product already exists in this store." })
    ∧ ((e.code == some 11000 && e.hasKeyPattern && e.keyPatternProductId && e.keyPatternStoreId) = false →
      e.name = "CastError" →
      createCatchHandler e =
        { status := 400, success := false, message := "Invalid ID format in request body." })
    ∧ ((e.code == some 11000 && e.hasKeyPattern && e.keyPatternProductId && e.keyPatternStoreId) = false →
      e.name ≠ "CastError" →
      createCatchHandler e =
        { status := 500, success := false,
          message := msgOr e.message "An error occurred while creating the store product." })
    ∧ getStoreProductsCatchHandler e =
        { status := 500, success := false,
          message := msgOr e.message "An error occurred while fetching store products." }
    ∧ getStoreProductByIdCatchHandler e =
        { status := 500, success := false,
          message := msgOr e.message "An error occurred while fetching the store product." }
    ∧ updateStoreProductCatchHandler e =
        { status := 500, success := false,
          message := msgOr e.message "An error occurred while updating the store product." }
    ∧ deleteStoreProductCatchHandler e =
        { status := 500, success := false,
          message := msgOr e.message "An error occurred while deleting the store product." }
    ∧ getProductSearchSummaryCatchHandler e =
        { status := 500, success := false,
          message := msgOr e.message "An error occurred while fetching product search summary." }
    ∧ getStoreOptionsForProductCatchHandler e =
        { status := 500, success := false,
          message := msgOr e.message "An error occurred while fetching store options." }
    ∧ (∀ (body : CreateBody) (freshId : String) (now : Nat),
        missingRequired body = false →
        isValidObjectId (body.productId.getD "") = true →
        isValidObjectId (body.storeId.getD "") = true →
        createStoreProduct body freshId now (some e) db = ofErr (createCatchHandler e) db)
    ∧ (∀ storeId category recommended discount search : Option String,
        (truthyStr storeId && !(isValidObjectId (storeId.getD ""))) = false →
        getStoreProducts storeId category recommended discount search (some e) db =
          ofErr (getStoreProductsCatchHandler e) db)
    ∧ (∀ id : String, isValidObjectId id = true →
        getStoreProductById id (some e) db = ofErr (getStoreProductByIdCatchHandler e) db)
    ∧ (∀ (id : String) (body : UpdateBody) (now : Nat), isValidObjectId id = true →
        updateStoreProduct id body now (some e) db = ofErr (updateStoreProductCatchHandler e) db)
    ∧ (∀ id : String, isValidObjectId id = true →
        deleteStoreProduct id (some e) db = ofErr (deleteStoreProductCatchHandler e) db)
    ∧ (∀ category search : Option String,
        getProductSearchSummary category search (some e) db =
          ofErr (getProductSearchSummaryCatchHandler e) db)
    ∧ (∀ pid : String, (pid == "" || !(isValidObjectId pid)) = false →
        getStoreOptionsForProduct pid (some e) db =
          ofErr (getStoreOptionsForProductCatchHandler e) db) := by
  refine ⟨?_, ?_, ?_, rfl, rfl, rfl, rfl, rfl, rfl, ?_, ?_, ?_, ?_, ?_, ?_, ?_⟩
  · intro h
    simp [createCatchHandler, h]
  · intro h hc
    simp [createCatchHandler, h, hc]
  · intro h hc
    have : (e.name == "CastError") = false := by
      cases hb : (e.name == "CastError") with
      | false => rfl
      | true => exact absurd (by rwa [beq_iff_eq] at hb) hc
    simp [createCatchHandler, h, this]
  · intro body freshId now hm hvp hvs
    simp [createStoreProduct, hm, hvp, hvs]
  · intro storeId category recommended discount search hg
    simp [getStoreProducts, hg]
  · intro id hv
    simp [getStoreProductById, hv]
  · intro id body now hv
    simp [updateStoreProduct, hv]
  · intro id hv
    simp [deleteStoreProduct, hv]
  · intro category search
    rfl
  · intro pid hg
    simp [getStoreOptionsForProduct, hg]

/-- Witness for the amended C2: a cast error thrown during Delete against
`db0` is caught and mapped to 500 carrying its message. -/
theorem persistence_error_mapping_witness :
    deleteStoreProduct "spCCCCCCCCC1"
      (some { code := none, hasKeyPattern := false, keyPatternProductId := false,
              keyPatternStoreId := false, name := "CastError",
              message := "Cast to ObjectId failed" }) db0 =
      ofErr (deleteStoreProductCatchHandler
        { code := none, hasKeyPattern := false, keyPatternProductId := false,
          keyPatternStoreId := false, name := "CastError",
          message := "Cast to ObjectId failed" }) db0 :=
  (persistence_error_mapping
    { code := none, hasKeyPattern := false, keyPatternProductId := false,
      keyPatternStoreId := false, name := "CastError",
      message := "Cast to ObjectId failed" } db0).2.2.2.2.2.2.2.2.2.2.2.2.2.1
    "spCCCCCCCCC1" (by decide)

/-! ### List lemmas for the aggregation pipelines -/

theorem filter_key_eq_find {α : Type} (key : α → String) (l : List α) (x : String)
    (h : (l.map key).Nodup) :
    l.filter (fun a => key a == x) = (l.find? (fun a => key a == x)).toList := by
  induction l with
  | nil => rfl
  | cons a l ih =>
    rw [List.map_cons, List.nodup_cons] at h
    by_cases ha : (key a == x) = true
    · have hnil : l.filter (fun b => key b == x) = [] := by
        rw [List.filter_eq_nil_iff]
        intro b hb hbx
        apply h.1
        rw [List.mem_map]
        refine ⟨b, hb, ?_⟩
        rw [beq_iff_eq] at ha hbx
        rw [hbx, ha]
      simp only [List.filter_cons, List.find?_cons, ha, if_true, hnil]
      rfl
    · have ha' : (key a == x) = false := by
        revert ha
        cases (key a == x) <;> simp
      simp only [List.filter_cons, List.find?_cons, ha', if_false]
      exact ih h.2

theorem flatMap_option_toList {α β : Type} (g : α → Option β) (l : List α) :
    l.flatMap (fun a => (g a).toList) = l.filterMap g := by
  induction l with
  | nil => rfl
  | cons a l ih =>
    rw [List.flatMap_cons, List.filterMap_cons]
    cases g a <;> simp [ih]

theorem option_toList_map {α β : Type} (o : Option α) (f : α → β) :
    o.toList.map f = (o.map f).toList := by
  cases o <;> rfl

theorem lookupUnwindProducts_eq_filterMap (db : DB) (l : List StoreProductDoc)
    (h : (db.products.map (fun p => p._id)).Nodup) :
    lookupUnwindProducts db l =
      l.filterMap (fun sp => (db.findProduct sp.productId).map (fun p => (sp, p))) := by
  have hstep : ∀ sp : StoreProductDoc,
      (db.products.filter (fun p => p._id == sp.productId)).map (fun p => (sp, p)) =
        ((db.findProduct sp.productId).map (fun p => (sp, p))).toList := by
    intro sp
    rw [filter_key_eq_find (fun p => p._id) db.products sp.productId h, option_toList_map]
    rfl
  unfold lookupUnwindProducts
  rw [← flatMap_option_toList]
  simp only [hstep]

theorem lookupUnwindStores_eq_filterMap (db : DB) (l : List (StoreProductDoc × ProductDoc))
    (h : (db.stores.map (fun s => s._id)).Nodup) :
    lookupUnwindStores db l =
      l.filterMap (fun r => (db.findStore r.1.storeId).map (fun s => (r, s))) := by
  have hstep : ∀ r : StoreProductDoc × ProductDoc,
      (db.stores.filter (fun s => s._id == r.1.storeId)).map (fun s => (r, s)) =
        ((db.findStore r.1.storeId).map (fun s => (r, s))).toList := by
    intro r
    rw [filter_key_eq_find (fun s => s._id) db.stores r.1.storeId h, option_toList_map]
    rfl
  unfold lookupUnwindStores
  rw [← flatMap_option_toList]
  simp only [hstep]

theorem matchStage_trivial (l : List StoreProductDoc) :
    matchStage { storeId := none, recommended := none, discount := none } l = l := rfl

theorem categoryStage_none (l : List ((StoreProductDoc × ProductDoc) × StoreDoc)) :
    categoryStage none l = l := rfl

theorem searchStage_none (l : List ((StoreProductDoc × ProductDoc) × StoreDoc)) :
    searchStage none l = l := rfl

/-- With duplicate-free product and store identifiers, the filter-free
List pipeline is the inner join computed record by record. -/
theorem listPipeline_no_filters (db : DB)
    (hp : (db.products.map (fun p => p._id)).Nodup)
    (hs : (db.stores.map (fun s => s._id)).Nodup) :
    listPipeline db (buildListQuery none none none) none none =
      db.storeProducts.filterMap (fun sp =>
        (db.findProduct sp.productId).bind (fun p =>
          (db.findStore sp.storeId).map (fun s => projectRow ((sp, p), s)))) := by
  unfold listPipeline
  rw [show buildListQuery none none none =
      ({ storeId := none, recommended := none, discount := none } : ListQuery) from rfl,
    matchStage_trivial, categoryStage_none, searchStage_none]
  rw [lookupUnwindProducts_eq_filterMap db _ hp, lookupUnwindStores_eq_filterMap db _ hs]
  rw [List.filterMap_filterMap, List.map_filterMap]
  apply List.filterMap_congr
  intro sp _
  cases hfp : db.findProduct sp.productId <;> cases hfs : db.findStore sp.storeId <;>
    simp [hfp, hfs]

/-- **C5.** List with no filter criteria returns exactly the records whose
referenced Product and Store both exist (a record whose Product or Store
is missing is dropped — inner-join semantics), each record carrying the
full Product and Store documents inline, together with price, stock,
availability, recommended, discount, images and timestamps (the
`projectRow` shape). -/
theorem getStoreProducts_no_filters_inner_join (db : DB)
    (hp : (db.products.map (fun p => p._id)).Nodup)
    (hs : (db.stores.map (fun s => s._id)).Nodup) :
    getStoreProducts none none none none none none db =
      { status := 200, success := true, message := none,
        payload := some (db.storeProducts.filterMap (fun sp =>
          (db.findProduct sp.productId).bind (fun p =>
            (db.findStore sp.storeId).map (fun s => projectRow ((sp, p), s))))),
        db := db, dbAccessed := true } := by
  have h := listPipeline_no_filters db hp hs
  simp [getStoreProducts, truthyStr, h]

/-- Witness for C5 on `db0`: the orphan record (missing product) is
dropped, the other three records come back joined. -/
theorem getStoreProducts_no_filters_inner_join_witness :
    (getStoreProducts none none none none none none db0).status = 200
    ∧ (getStoreProducts none none none none none none db0).payload =
        some [projectRow ((sp1, prod1), store1), projectRow ((sp2, prod1), store2),
          projectRow ((sp3, prod2), store1)] := by
  rw [getStoreProducts_no_filters_inner_join db0 (by decide) (by decide)]
  exact ⟨rfl, by decide⟩

/-! ### Pushing a per-record filter through the List pipeline -/

theorem matchStage_eq_filter (q : ListQuery) (l : List StoreProductDoc) :
    matchStage q l = l.filter (matchesQuery q) := by
  unfold matchStage
  by_cases h : q.isEmptyQ = true
  · rw [if_pos h]
    obtain ⟨s, r, d⟩ := q
    simp only [ListQuery.isEmptyQ, Bool.and_eq_true, beq_iff_eq] at h
    obtain ⟨⟨hs, hr⟩, hd⟩ := h
    subst hs; subst hr; subst hd
    symm
    rw [List.filter_eq_self]
    intro a _
    rfl
  · rw [if_neg h]

theorem matchesQuery_rec_true (s : Option String) (d : Option Bool) (sp : StoreProductDoc) :
    matchesQuery { storeId := s, recommended := some true, discount := d } sp =
      (matchesQuery { storeId := s, recommended := none, discount := d } sp
        && (sp.recommended == true)) := by
  cases hr : sp.recommended <;> simp [matchesQuery, hr]

theorem matchesQuery_disc_true (s : Option String) (r : Option Bool) (sp : StoreProductDoc) :
    matchesQuery { storeId := s, recommended := r, discount := some true } sp =
      (matchesQuery { storeId := s, recommended := r, discount := none } sp
        && (sp.discount == true)) := by
  cases hd : sp.discount <;> simp [matchesQuery, hd]

theorem filter_and_split {α : Type} (p q : α → Bool) (l : List α) :
    l.filter (fun a => p a && q a) = (l.filter p).filter q := by
  induction l with
  | nil => rfl
  | cons a l ih =>
    cases hp : p a <;> cases hq : q a <;>
      simp [List.filter_cons, hp, hq, ih]

theorem lookupUnwindProducts_cons (db : DB) (a : StoreProductDoc) (l : List StoreProductDoc) :
    lookupUnwindProducts db (a :: l) =
      (db.products.filter (fun p => p._id == a.productId)).map (fun p => (a, p))
        ++ lookupUnwindProducts db l := by
  unfold lookupUnwindProducts
  rw [List.flatMap_cons]

theorem lookupUnwindStores_cons (db : DB) (a : StoreProductDoc × ProductDoc)
    (l : List (StoreProductDoc × ProductDoc)) :
    lookupUnwindStores db (a :: l) =
      (db.stores.filter (fun s => s._id == a.1.storeId)).map (fun s => (a, s))
        ++ lookupUnwindStores db l := by
  unfold lookupUnwindStores
  rw [List.flatMap_cons]

theorem lookupUnwindProducts_filter (db : DB) (p : StoreProductDoc → Bool)
    (l : List StoreProductDoc) :
    lookupUnwindProducts db (l.filter p) =
      (lookupUnwindProducts db l).filter (fun r => p r.1) := by
  induction l with
  | nil => rfl
  | cons a l ih =>
    by_cases ha : p a = true
    · rw [List.filter_cons, if_pos ha, lookupUnwindProducts_cons, lookupUnwindProducts_cons,
        List.filter_append, ih]
      have hkeep : ((db.products.filter (fun q => q._id == a.productId)).map
          (fun q => (a, q))).filter (fun r => p r.1) =
          (db.products.filter (fun q => q._id == a.productId)).map (fun q => (a, q)) := by
        rw [List.filter_eq_self]
        intro b hb
        rw [List.mem_map] at hb
        obtain ⟨q, _, hq⟩ := hb
        subst hq
        exact ha
      rw [hkeep]
    · rw [List.filter_cons, if_neg ha, lookupUnwindProducts_cons, List.filter_append, ih]
      have hdrop : ((db.products.filter (fun q => q._id == a.productId)).map
          (fun q => (a, q))).filter (fun r => p r.1) = [] := by
        rw [List.filter_eq_nil_iff]
        intro b hb
        rw [List.mem_map] at hb
        obtain ⟨q, _, hq⟩ := hb
        subst hq
        exact ha
      rw [hdrop, List.nil_append]

theorem lookupUnwindStores_filter (db : DB) (q : (StoreProductDoc × ProductDoc) → Bool)
    (l : List (StoreProductDoc × ProductDoc)) :
    lookupUnwindStores db (l.filter q) =
      (lookupUnwindStores db l).filter (fun r => q r.1) := by
  induction l with
  | nil => rfl
  | cons a l ih =>
    by_cases ha : q a = true
    · rw [List.filter_cons, if_pos ha, lookupUnwindStores_cons, lookupUnwindStores_cons,
        List.filter_append, ih]
      have hkeep : ((db.stores.filter (fun s => s._id == a.1.storeId)).map
          (fun s => (a, s))).filter (fun r => q r.1) =
          (db.stores.filter (fun s => s._id == a.1.storeId)).map (fun s => (a, s)) := by
        rw [List.filter_eq_self]
        intro b hb
        rw [List.mem_map] at hb
        obtain ⟨s, _, hs⟩ := hb
        subst hs
        exact ha
      rw [hkeep]
    · rw [List.filter_cons, if_neg ha, lookupUnwindStores_cons, List.filter_append, ih]
      have hdrop : ((db.stores.filter (fun s => s._id == a.1.storeId)).map
          (fun s => (a, s))).filter (fun r => q r.1) = [] := by
        rw [List.filter_eq_nil_iff]
        intro b hb
        rw [List.mem_map] at hb
        obtain ⟨s, _, hs⟩ := hb
        subst hs
        exact ha
      rw [hdrop, List.nil_append]

theorem categoryStage_filter_comm (c : Option String)
    (q : ((StoreProductDoc × ProductDoc) × StoreDoc) → Bool)
    (l : List ((StoreProductDoc × ProductDoc) × StoreDoc)) :
    categoryStage c (l.filter q) = (categoryStage c l).filter q := by
  unfold categoryStage
  by_cases h : truthyStr c = true
  · rw [if_pos h, if_pos h, List.filter_comm]
  · rw [if_neg h, if_neg h]

theorem searchStage_filter_comm (s : Option String)
    (q : ((StoreProductDoc × ProductDoc) × StoreDoc) → Bool)
    (l : List ((StoreProductDoc × ProductDoc) × StoreDoc)) :
    searchStage s (l.filter q) = (searchStage s l).filter q := by
  unfold searchStage
  by_cases h : truthyStr s = true
  · rw [if_pos h, if_pos h, List.filter_comm]
  · rw [if_neg h, if_neg h]

theorem filter_fst_map_projectRow (p : StoreProductDoc → Bool) (pj : JoinedRow → Bool)
    (hcomp : ∀ r, pj (projectRow r) = p r.1.1)
    (l : List ((StoreProductDoc × ProductDoc) × StoreDoc)) :
    (l.filter (fun r => p r.1.1)).map projectRow = (l.map projectRow).filter pj := by
  rw [List.filter_map]
  congr 1
  apply List.filter_congr
  intro r _
  simp [Function.comp, hcomp]

theorem listPipeline_recommended_true (db : DB) (sq : Option String) (d : Option Bool)
    (category search : Option String) :
    listPipeline db { storeId := sq, recommended := some true, discount := d } category search =
      (listPipeline db { storeId := sq, recommended := none, discount := d } category search).filter
        (fun r => r.recommended == true) := by
  unfold listPipeline
  rw [matchStage_eq_filter, matchStage_eq_filter]
  have h1 : db.storeProducts.filter
      (matchesQuery { storeId := sq, recommended := some true, discount := d }) =
      (db.storeProducts.filter
        (matchesQuery { storeId := sq, recommended := none, discount := d })).filter
        (fun sp => sp.recommended == true) := by
    rw [← filter_and_split]
    apply List.filter_congr
    intro sp _
    exact matchesQuery_rec_true sq d sp
  rw [h1, lookupUnwindProducts_filter, lookupUnwindStores_filter,
    categoryStage_filter_comm, searchStage_filter_comm,
    filter_fst_map_projectRow (fun sp => sp.recommended == true)
      (fun j => j.recommended == true) (fun r => rfl)]

theorem listPipeline_discount_true (db : DB) (sq : Option String) (r : Option Bool)
    (category search : Option String) :
    listPipeline db { storeId := sq, recommended := r, discount := some true } category search =
      (listPipeline db { storeId := sq, recommended := r, discount := none } category search).filter
        (fun row => row.discount == true) := by
  unfold listPipeline
  rw [matchStage_eq_filter, matchStage_eq_filter]
  have h1 : db.storeProducts.filter
      (matchesQuery { storeId := sq, recommended := r, discount := some true }) =
      (db.storeProducts.filter
        (matchesQuery { storeId := sq, recommended := r, discount := none })).filter
        (fun sp => sp.discount == true) := by
    rw [← filter_and_split]
    apply List.filter_congr
    intro sp _
    exact matchesQuery_disc_true sq r sp
  rw [h1, lookupUnwindProducts_filter, lookupUnwindStores_filter,
    categoryStage_filter_comm, searchStage_filter_comm,
    filter_fst_map_projectRow (fun sp => sp.discount == true)
      (fun j => j.discount == true) (fun x => rfl)]

/-- **C6.** List applies the `recommended == true` filter iff the
`recommended` query parameter is the literal string `"true"`: for any
other value the result is identical to the one with no `recommended`
parameter at all (records with `recommended == false` are not excluded),
and with the literal `"true"` the result is exactly the unfiltered result
restricted to `recommended == true` rows.  The `discount` parameter
behaves the same way. -/
theorem getStoreProducts_literal_true_filter
    (storeId category recommended discount search : Option String)
    (inj : Option JsError) (db : DB) :
    (recommended ≠ some "true" →
      getStoreProducts storeId category recommended discount search inj db =
        getStoreProducts storeId category none discount search inj db)
    ∧ (discount ≠ some "true" →
      getStoreProducts storeId category recommended discount search inj db =
        getStoreProducts storeId category recommended none search inj db)
    ∧ ((getStoreProducts storeId category (some "true") discount search inj db).payload =
        Option.map (fun rows => rows.filter (fun r => r.recommended == true))
          (getStoreProducts storeId category none discount search inj db).payload)
    ∧ ((getStoreProducts storeId category recommended (some "true") search inj db).payload =
        Option.map (fun rows => rows.filter (fun r => r.discount == true))
          (getStoreProducts storeId category recommended none search inj db).payload) := by
  refine ⟨?_, ?_, ?_, ?_⟩
  · intro h
    have hb : (recommended == some "true") = false := beq_eq_false_iff_ne.mpr h
    simp [getStoreProducts, buildListQuery, hb]
  · intro h
    have hb : (discount == some "true") = false := beq_eq_false_iff_ne.mpr h
    simp [getStoreProducts, buildListQuery, hb]
  · by_cases hg : (truthyStr storeId && !(isValidObjectId (storeId.getD ""))) = true
    · simp [getStoreProducts, hg, preDbFail]
    · cases inj with
      | some e => simp [getStoreProducts, hg, ofErr]
      | none =>
        simp only [getStoreProducts, hg, Bool.false_eq_true, if_false, if_neg hg]
        simp [buildListQuery, listPipeline_recommended_true]
  · by_cases hg : (truthyStr storeId && !(isValidObjectId (storeId.getD ""))) = true
    · simp [getStoreProducts, hg, preDbFail]
    · cases inj with
      | some e => simp [getStoreProducts, hg, ofErr]
      | none =>
        simp only [getStoreProducts, hg, Bool.false_eq_true, if_false, if_neg hg]
        simp [buildListQuery, listPipeline_discount_true]

/-- Witness for C6 on `db0`: `recommended="yes"` behaves like no filter
(the `recommended == false` record `sp2` is kept), while
`recommended="true"` keeps only the recommended rows. -/
theorem getStoreProducts_literal_true_filter_witness :
    getStoreProducts none none (some "yes") none none none db0 =
      getStoreProducts none none none none none none db0
    ∧ (getStoreProducts none none (some "true") none none none db0).payload =
      Option.map (fun rows => rows.filter (fun r => r.recommended == true))
        (getStoreProducts none none none none none none db0).payload := by
  refine ⟨?_, ?_⟩
  · exact (getStoreProducts_literal_true_filter none none (some "yes") none none none db0).1
      (by decide)
  · exact (getStoreProducts_literal_true_filter none none none none none none db0).2.2.1

/-! ### Grouping lemmas for the search summary -/

theorem foldl_min_le_init (l : List Int) (a : Int) : l.foldl min a ≤ a := by
  induction l generalizing a with
  | nil => exact le_refl a
  | cons b l ih => exact le_trans (ih (min a b)) (min_le_left a b)

theorem foldl_min_le_mem (l : List Int) (a x : Int) (hx : x ∈ l) : l.foldl min a ≤ x := by
  induction l generalizing a with
  | nil => cases hx
  | cons b l ih =>
    rw [List.foldl_cons]
    rcases List.mem_cons.mp hx with h | h
    · subst h
      exact le_trans (foldl_min_le_init l (min a x)) (min_le_right a x)
    · exact ih (min a b) h

theorem foldl_min_mem (l : List Int) (a : Int) : l.foldl min a = a ∨ l.foldl min a ∈ l := by
  induction l generalizing a with
  | nil => exact Or.inl rfl
  | cons b l ih =>
    rw [List.foldl_cons]
    rcases ih (min a b) with h | h
    · rcases min_choice a b with hm | hm
      · exact Or.inl (h.trans hm)
      · exact Or.inr (by rw [h, hm]; exact List.mem_cons_self b l)
    · exact Or.inr (List.mem_cons_of_mem b h)

theorem foldl_max_init_le (l : List Int) (a : Int) : a ≤ l.foldl max a := by
  induction l generalizing a with
  | nil => exact le_refl a
  | cons b l ih => exact le_trans (le_max_left a b) (ih (max a b))

theorem foldl_max_mem_le (l : List Int) (a x : Int) (hx : x ∈ l) : x ≤ l.foldl max a := by
  induction l generalizing a with
  | nil => cases hx
  | cons b l ih =>
    rw [List.foldl_cons]
    rcases List.mem_cons.mp hx with h | h
    · subst h
      exact le_trans (le_max_right a x) (foldl_max_init_le l (max a x))
    · exact ih (max a b) h

theorem foldl_max_mem (l : List Int) (a : Int) : l.foldl max a = a ∨ l.foldl max a ∈ l := by
  induction l generalizing a with
  | nil => exact Or.inl rfl
  | cons b l ih =>
    rw [List.foldl_cons]
    rcases ih (max a b) with h | h
    · rcases max_choice a b with hm | hm
      · exact Or.inl (h.trans hm)
      · exact Or.inr (by rw [h, hm]; exact List.mem_cons_self b l)
    · exact Or.inr (List.mem_cons_of_mem b h)

theorem firstOccKeysFuel_congr :
    ∀ (n m : Nat) (l : List String), l.length ≤ n → l.length ≤ m →
    firstOccKeysFuel n l = firstOccKeysFuel m l := by
  intro n
  induction n with
  | zero =>
    intro m l h1 _
    rw [Nat.le_zero, List.length_eq_zero] at h1
    subst h1
    cases m <;> rfl
  | succ n ih =>
    intro m l h1 h2
    cases l with
    | nil => cases m <;> rfl
    | cons k ks =>
      cases m with
      | zero => simp at h2
      | succ m =>
        show k :: firstOccKeysFuel n (ks.filter (fun x => !(x == k))) =
          k :: firstOccKeysFuel m (ks.filter (fun x => !(x == k)))
        rw [ih m (ks.filter (fun x => !(x == k)))
          (le_trans (List.length_filter_le _ ks) (Nat.le_of_succ_le_succ h1))
          (le_trans (List.length_filter_le _ ks) (Nat.le_of_succ_le_succ h2))]

theorem firstOccKeys_cons (k : String) (ks : List String) :
    firstOccKeys (k :: ks) = k :: firstOccKeys (ks.filter (fun x => !(x == k))) := by
  show k :: firstOccKeysFuel ks.length (ks.filter (fun x => !(x == k))) =
    k :: firstOccKeys (ks.filter (fun x => !(x == k)))
  rw [firstOccKeysFuel_congr ks.length (ks.filter (fun x => !(x == k))).length
    (ks.filter (fun x => !(x == k))) (List.length_filter_le _ ks) (le_refl _)]
  rfl

theorem mem_firstOccKeys_aux (x : String) :
    ∀ (n : Nat) (l : List String), l.length ≤ n → (x ∈ firstOccKeys l ↔ x ∈ l) := by
  intro n
  induction n with
  | zero =>
    intro l hl
    rw [Nat.le_zero, List.length_eq_zero] at hl
    subst hl
    exact Iff.rfl
  | succ n ih =>
    intro l hl
    cases l with
    | nil => exact Iff.rfl
    | cons k ks =>
      rw [firstOccKeys_cons, List.mem_cons, List.mem_cons,
        ih (ks.filter (fun y => !(y == k)))
          (le_trans (List.length_filter_le _ ks) (Nat.le_of_succ_le_succ hl))]
      constructor
      · rintro (h | h)
        · exact Or.inl h
        · exact Or.inr (List.mem_of_mem_filter h)
      · rintro (h | h)
        · exact Or.inl h
        · by_cases hxk : x = k
          · exact Or.inl hxk
          · refine Or.inr ?_
            rw [List.mem_filter]
            exact ⟨h, by simp [hxk]⟩

theorem mem_firstOccKeys (x : String) (l : List String) :
    x ∈ firstOccKeys l ↔ x ∈ l :=
  mem_firstOccKeys_aux x l.length l (le_refl _)

theorem nodup_firstOccKeys_aux :
    ∀ (n : Nat) (l : List String), l.length ≤ n → (firstOccKeys l).Nodup := by
  intro n
  induction n with
  | zero =>
    intro l hl
    rw [Nat.le_zero, List.length_eq_zero] at hl
    subst hl
    exact List.nodup_nil
  | succ n ih =>
    intro l hl
    cases l with
    | nil => exact List.nodup_nil
    | cons k ks =>
      rw [firstOccKeys_cons, List.nodup_cons]
      constructor
      · intro hk
        rw [mem_firstOccKeys, List.mem_filter] at hk
        simp at hk
      · exact ih (ks.filter (fun y => !(y == k)))
          (le_trans (List.length_filter_le _ ks) (Nat.le_of_succ_le_succ hl))

theorem nodup_firstOccKeys (l : List String) : (firstOccKeys l).Nodup :=
  nodup_firstOccKeys_aux l.length l (le_refl _)

theorem summarize_eq_some (k : String) (rows : List (StoreProductDoc × ProductDoc))
    (hne : rows.filter (fun r => r.1.productId == k) ≠ []) :
    ∃ row, summarize k rows = some row := by
  unfold summarize
  cases h : rows.filter (fun r => r.1.productId == k) with
  | nil => exact absurd h hne
  | cons r rs => exact ⟨_, rfl⟩

theorem summarize_some_spec (k : String) (rows : List (StoreProductDoc × ProductDoc))
    (row : SummaryRow) (h : summarize k rows = some row) :
    row._id = k
    ∧ row.minPrice ∈ (rows.filter (fun r => r.1.productId == k)).map (fun r => r.1.price)
    ∧ (∀ p ∈ (rows.filter (fun r => r.1.productId == k)).map (fun r => r.1.price),
        row.minPrice ≤ p)
    ∧ row.maxPrice ∈ (rows.filter (fun r => r.1.productId == k)).map (fun r => r.1.price)
    ∧ (∀ p ∈ (rows.filter (fun r => r.1.productId == k)).map (fun r => r.1.price),
        p ≤ row.maxPrice) := by
  unfold summarize at h
  cases hf : rows.filter (fun r => r.1.productId == k) with
  | nil =>
    rw [hf] at h
    exact absurd h (by simp)
  | cons r rs =>
    rw [hf] at h
    have hrow := Option.some.inj h
    subst hrow
    refine ⟨rfl, ?_, ?_, ?_, ?_⟩
    · rcases foldl_min_mem (rs.map (fun x => x.1.price)) r.1.price with hm | hm
      · rw [List.map_cons, hm]
        exact List.mem_cons_self _ _
      · rw [List.map_cons]
        exact List.mem_cons_of_mem _ hm
    · intro p hp
      rw [List.map_cons, List.mem_cons] at hp
      rcases hp with hp | hp
      · subst hp
        exact foldl_min_le_init _ _
      · exact foldl_min_le_mem _ _ _ hp
    · rcases foldl_max_mem (rs.map (fun x => x.1.price)) r.1.price with hm | hm
      · rw [List.map_cons, hm]
        exact List.mem_cons_self _ _
      · rw [List.map_cons]
        exact List.mem_cons_of_mem _ hm
    · intro p hp
      rw [List.map_cons, List.mem_cons] at hp
      rcases hp with hp | hp
      · subst hp
        exact foldl_max_init_le _ _
      · exact foldl_max_mem_le _ _ _ hp

theorem filter_productId_ne_nil (k : String) (rows : List (StoreProductDoc × ProductDoc))
    (h : k ∈ rows.map (fun r => r.1.productId)) :
    rows.filter (fun r => r.1.productId == k) ≠ [] := by
  rw [List.mem_map] at h
  obtain ⟨r, hr, hk⟩ := h
  intro hnil
  rw [List.filter_eq_nil_iff] at hnil
  exact hnil r hr (by simp [hk])

theorem groupStage_map_id_aux (rows : List (StoreProductDoc × ProductDoc)) :
    ∀ keys : List String,
    (∀ k ∈ keys, rows.filter (fun r => r.1.productId == k) ≠ []) →
    (keys.filterMap (fun k => summarize k rows)).map (fun row => row._id) = keys := by
  intro keys h
  induction keys with
  | nil => rfl
  | cons k ks ih =>
    rw [List.filterMap_cons]
    obtain ⟨row, hrow⟩ := summarize_eq_some k rows (h k (List.mem_cons_self k ks))
    rw [hrow, List.map_cons, (summarize_some_spec k rows row hrow).1,
      ih (fun y hy => h y (List.mem_cons_of_mem k hy))]

theorem groupStage_map_id (rows : List (StoreProductDoc × ProductDoc)) :
    (groupStage rows).map (fun row => row._id) =
      firstOccKeys (rows.map (fun r => r.1.productId)) := by
  unfold groupStage
  apply groupStage_map_id_aux
  intro k hk
  exact filter_productId_ne_nil k rows ((mem_firstOccKeys k _).mp hk)

theorem mem_of_searchStageP (s : Option String) (l : List (StoreProductDoc × ProductDoc))
    (r : StoreProductDoc × ProductDoc) (h : r ∈ searchStageP s l) : r ∈ l := by
  unfold searchStageP at h
  by_cases hs : truthyStr s = true
  · rw [if_pos hs] at h
    exact List.mem_of_mem_filter h
  · rw [if_neg hs] at h
    exact h

theorem mem_of_categoryStageP (c : Option String) (l : List (StoreProductDoc × ProductDoc))
    (r : StoreProductDoc × ProductDoc) (h : r ∈ categoryStageP c l) : r ∈ l := by
  unfold categoryStageP at h
  by_cases hc : truthyStr c = true
  · rw [if_pos hc] at h
    exact List.mem_of_mem_filter h
  · rw [if_neg hc] at h
    exact h

theorem mem_lookupUnwindProducts_fst (db : DB) (l : List StoreProductDoc)
    (r : StoreProductDoc × ProductDoc) (h : r ∈ lookupUnwindProducts db l) : r.1 ∈ l := by
  unfold lookupUnwindProducts at h
  rw [List.mem_flatMap] at h
  obtain ⟨sp, hsp, hr⟩ := h
  rw [List.mem_map] at hr
  obtain ⟨p, _, hp⟩ := hr
  rw [← hp]
  exact hsp

theorem mem_summaryCandidates_isAvailable (db : DB) (category search : Option String)
    (r : StoreProductDoc × ProductDoc) (h : r ∈ summaryCandidates db category search) :
    r.1.isAvailable = true := by
  unfold summaryCandidates at h
  have h1 := mem_of_categoryStageP category _ r (mem_of_searchStageP search _ r h)
  have h2 := mem_lookupUnwindProducts_fst db _ r h1
  unfold availableStage at h2
  have := (List.mem_filter.mp h2).2
  rwa [beq_iff_eq] at this

/-- **C7.** SearchSummary aggregates only over records with
`isAvailable == true`, groups them by productId — each distinct product
among the matching available records yields exactly one summary row (the
row ids are duplicate-free and coincide with the distinct productIds of
the candidates) — and in every row `minPrice` equals the minimum and
`maxPrice` the maximum of the prices of the records grouped into it. -/
theorem getProductSearchSummary_grouping (category search : Option String) (db : DB) :
    (getProductSearchSummary category search none db).status = 200
    ∧ (getProductSearchSummary category search none db).success = true
    ∧ (getProductSearchSummary category search none db).payload =
        some (groupStage (summaryCandidates db category search))
    ∧ (∀ r ∈ summaryCandidates db category search, r.1.isAvailable = true)
    ∧ ((groupStage (summaryCandidates db category search)).map (fun row => row._id)).Nodup
    ∧ (∀ k : String,
        k ∈ (groupStage (summaryCandidates db category search)).map (fun row => row._id) ↔
        k ∈ (summaryCandidates db category search).map (fun r => r.1.productId))
    ∧ (∀ row ∈ groupStage (summaryCandidates db category search),
        row.minPrice ∈ ((summaryCandidates db category search).filter
          (fun r => r.1.productId == row._id)).map (fun r => r.1.price)
        ∧ (∀ p ∈ ((summaryCandidates db category search).filter
            (fun r => r.1.productId == row._id)).map (fun r => r.1.price), row.minPrice ≤ p)
        ∧ row.maxPrice ∈ ((summaryCandidates db category search).filter
          (fun r => r.1.productId == row._id)).map (fun r => r.1.price)
        ∧ (∀ p ∈ ((summaryCandidates db category search).filter
            (fun r => r.1.productId == row._id)).map (fun r => r.1.price), p ≤ row.maxPrice)) := by
  refine ⟨rfl, rfl, rfl, ?_, ?_, ?_, ?_⟩
  · intro r h
    exact mem_summaryCandidates_isAvailable db category search r h
  · rw [groupStage_map_id]
    exact nodup_firstOccKeys _
  · intro k
    rw [groupStage_map_id, mem_firstOccKeys]
  · intro row hrow
    unfold groupStage at hrow
    rw [List.mem_filterMap] at hrow
    obtain ⟨k, _, hsum⟩ := hrow
    have spec := summarize_some_spec k _ row hsum
    rw [spec.1]
    exact ⟨spec.2.1, spec.2.2.1, spec.2.2.2.1, spec.2.2.2.2⟩

/-- Witness for C7 on `db0`: `sp1` and `sp2` (both available, same
product) collapse to one row with minPrice 5 and maxPrice 7; `sp3`
(unavailable) and the orphan (product gone) contribute nothing. -/
theorem getProductSearchSummary_grouping_witness :
    (getProductSearchSummary none none none db0).status = 200
    ∧ (getProductSearchSummary none none none db0).payload =
        some [{ _id := "productAAAA1", name := "Apple", description := "fruit",
                images := ["a.png"], minPrice := 5, maxPrice := 7,
                sampleStoreProductId := "spCCCCCCCCC1" }] := by
  have h := getProductSearchSummary_grouping none none db0
  exact ⟨h.1, h.2.2.1.trans (by decide)⟩

end FolkCart
